import Mathlib

/-!
Verification of the TiXL security-gate evaluation and vulnerability
aggregation pipeline, a shallow embedding of
`.github/scripts/security-gate-evaluator.py` and of the top-findings
selection of `.github/scripts/generate-security-dashboard.py`.

Modelling conventions:
* Python dicts with a known key set become structures; dicts used as maps
  become insertion-ordered association lists (`List (String × _)`), with
  `List.lookup` as `dict.get` and `pyDictIncr` as `defaultdict(int)`
  increment.
* `x in s` (substring test) is `pyIn`, `str.lower()` is `pyLower`, both
  defined by structural recursion over the character data so the kernel can
  evaluate them (Python only lower-cases ASCII letters in the strings this
  program compares; `Char.toLower` agrees there).
* Exceptions become `Except String`; the one reachable exception of the gate
  evaluation path (`KeyError`) is modelled explicitly.
* `sorted(..., reverse=True)` is a stable sort under the reversed key
  comparison; any two stable sorts of the same total preorder agree element
  for element, so it is embedded as the stable `List.insertionSort` with the
  relation `vulnBeforeRel` below.
-/

/-- Python substring test `pat in s`, on character lists: `listIsPrefix pat s`
is `s.startswith(pat)`. -/
def listIsPrefix : List Char → List Char → Bool
  | [], _ => true
  | _ :: _, [] => false
  | a :: as, b :: bs => a == b && listIsPrefix as bs

/-- Python substring containment on character lists. -/
def listInfix : List Char → List Char → Bool
  | pat, [] => pat.isEmpty
  | pat, b :: bs => listIsPrefix pat (b :: bs) || listInfix pat bs

/-- Python `pat in s` for strings. -/
def pyIn (pat s : String) : Bool := listInfix pat.data s.data

/-- Python `str.lower()` (ASCII letters, which is all `Char.toLower` changes
and all these scripts compare). -/
def pyLower (s : String) : String := ⟨s.data.map Char.toLower⟩

/-- Python string `<=` (code-point lexicographic), structurally recursive so
proofs and the kernel can evaluate it. -/
def strLeAux : List Char → List Char → Bool
  | [], _ => true
  | _ :: _, [] => false
  | a :: as, b :: bs =>
    if a.toNat < b.toNat then true
    else if b.toNat < a.toNat then false
    else strLeAux as bs

/-- Python `a <= b` on strings. -/
def pyStrLe (a b : String) : Bool := strLeAux a.data b.data

/-- Truthiness of an optional string (`if s:` in Python, `None` and `""`
falsy). -/
def pyTruthyStr : Option String → Bool
  | none => false
  | some s => s ≠ ""

/-- `defaultdict(int)` increment `d[k] += 1` on an insertion-ordered
association list. -/
def pyDictIncr (k : String) : List (String × Nat) → List (String × Nat)
  | [] => [(k, 1)]
  | (k₂, n) :: rest =>
    if k₂ == k then (k₂, n + 1) :: rest else (k₂, n) :: pyDictIncr k rest

/-- Sum of a counter dict, `sum(d.values())`. -/
def sumValues (d : List (String × Nat)) : Nat := (d.map (fun p => p.2)).sum

/-- One normalized finding, the dict shape `_create_vulnerability_from_data`
and the per-tool processors produce. Keys those processors leave out of the
dict are stored as the defaults every reader supplies to `.get`
(`severity` low, `category` unknown, `is_false_positive` false, absent
identifiers `none`). -/
structure Vulnerability where
  id : String
  title : String
  description : String
  severity : String
  tool : String
  category : String
  file_path : Option String
  line_number : Option Nat
  cve_id : Option String
  cwe_id : Option String
  package_name : Option String
  package_version : Option String
  is_false_positive : Bool
  status : String
deriving DecidableEq

/-- One entry of `tool_requirements`. -/
structure ToolReq where
  required : Bool
  min_score : Int
deriving DecidableEq

/-- One entry of `policy_rules`: a dict whose keys may be missing. -/
structure Rule where
  name : Option String
  condition : Option String
  action : Option String
deriving DecidableEq

/-- The `SecurityGateConfig` dataclass. -/
structure SecurityGateConfig where
  severity_thresholds : List (String × Int)
  tool_requirements : List (String × ToolReq)
  policy_rules : List Rule
  allow_list : List String
  fail_conditions : List String
deriving DecidableEq

/-- `_get_default_policy`. -/
def get_default_policy : SecurityGateConfig :=
  { severity_thresholds := [("critical", 0), ("high", 10), ("medium", 50), ("low", 100)]
    tool_requirements :=
      [("CodeQL", { required := true, min_score := 0 }),
       ("Grype", { required := true, min_score := 0 }),
       ("Semgrep", { required := false, min_score := 0 })]
    policy_rules :=
      [{ name := some "No critical vulnerabilities",
         condition := some "critical_count == 0", action := some "fail" },
       { name := some "Limited high-severity issues",
         condition := some "high_count <= 10", action := some "fail" },
       { name := some "No secrets in code",
         condition := some "secret_count == 0", action := some "fail" },
       { name := some "All required tools must pass",
         condition := some "required_tools_passed", action := some "fail" }]
    allow_list := ["CWE-999", "info-only", "documentation"]
    fail_conditions :=
      ["critical_vulnerabilities_exist", "excessive_high_vulnerabilities",
       "secrets_detected", "required_tools_failed"] }

/-- A value stored in `self.scan_results`: the analysis payload (opaque JSON,
never inspected) or a tool-name to status map under key `tool_results`. -/
inductive ScanVal where
  | analysisData (raw : String)
  | toolResults (m : List (String × String))
deriving DecidableEq

/-- The effect of `load_scan_results` on `self.scan_results`: starting from
the constructor state `{}`, the only write anywhere in the class is
`self.scan_results[..] = analysis_data` under the key `"analysis"`
(`_load_vulnerability_analysis`), performed when an `analysis.json` loads;
no code path stores any other key. -/
def load_scan_results_effect (analysisFile : Option String) : List (String × ScanVal) :=
  match analysisFile with
  | some raw => [("analysis", ScanVal.analysisData raw)]
  | none => []

/-- `_evaluate_required_tools`: look up `tool_results` in `scan_results`
(defaulting to the empty dict), then require status `passed` or `success`
for every tool whose requirements carry `required: true`. -/
def evaluate_required_tools (scan_results : List (String × ScanVal))
    (tool_requirements : List (String × ToolReq)) : Bool :=
  let tool_results : List (String × String) :=
    match List.lookup "tool_results" scan_results with
    | some (ScanVal.toolResults m) => m
    | _ => []
  tool_requirements.all fun p =>
    !p.2.required ||
      (let tool_result := (List.lookup p.1 tool_results).getD "unknown"
       tool_result == "passed" || tool_result == "success")

/-- `_is_allowed_vulnerability`: exact `cwe_id` membership (skipped when the
id is `None` or empty, Python truthiness), else case-insensitive substring
containment of any allow-list item in the title. -/
def is_allowed_vulnerability (allow_list : List String) (vuln : Vulnerability) : Bool :=
  (match vuln.cwe_id with
   | some c => c ≠ "" && allow_list.contains c
   | none => false) ||
  (let title := pyLower vuln.title
   allow_list.any fun allowed_item => pyIn (pyLower allowed_item) title)

/-- The accumulator of the counting loop of `_calculate_vulnerability_metrics`. -/
structure AggState where
  severity_counts : List (String × Nat)
  tool_counts : List (String × Nat)
  category_counts : List (String × Nat)
  secret_count : Nat
  cve_count : Nat
deriving DecidableEq

/-- The empty accumulator. -/
def initAggState : AggState :=
  { severity_counts := [], tool_counts := [], category_counts := []
    secret_count := 0, cve_count := 0 }

/-- One iteration of the counting loop: skip false positives, skip
allow-listed findings, otherwise bump every counter the body touches. -/
def aggStep (allow_list : List String) (st : AggState) (vuln : Vulnerability) : AggState :=
  if vuln.is_false_positive then st
  else if is_allowed_vulnerability allow_list vuln then st
  else
    { severity_counts := pyDictIncr vuln.severity st.severity_counts
      tool_counts := pyDictIncr vuln.tool st.tool_counts
      category_counts := pyDictIncr vuln.category st.category_counts
      secret_count := st.secret_count + (if vuln.category == "Secret Scanning" then 1 else 0)
      cve_count := st.cve_count + (if pyTruthyStr vuln.cve_id then 1 else 0) }

/-- The whole counting loop of `_calculate_vulnerability_metrics`. -/
def aggregateCounts (allow_list : List String) (vulns : List Vulnerability) : AggState :=
  vulns.foldl (aggStep allow_list) initAggState

/-- The `total_vulnerabilities` entry: only false positives are filtered out
of this count. -/
def totalVulnerabilitiesOf (vulns : List Vulnerability) : Nat :=
  (vulns.filter fun v => !v.is_false_positive).length

/-- The metrics dict `_calculate_vulnerability_metrics` returns. -/
structure Metrics where
  total_vulnerabilities : Nat
  critical_count : Nat
  high_count : Nat
  medium_count : Nat
  low_count : Nat
  secret_count : Nat
  cve_count : Nat
  tool_counts : List (String × Nat)
  category_counts : List (String × Nat)
  critical_vulnerabilities_exist : Bool
  excessive_high_vulnerabilities : Bool
  secrets_detected : Bool
  required_tools_passed : Bool
deriving DecidableEq

/-- `_calculate_vulnerability_metrics`. The `excessive_high_vulnerabilities`
entry indexes `severity_thresholds['high']` with `[...]`, which raises
`KeyError` when the loaded policy lacks that key; the error carries through
the surrounding call. -/
def calculate_vulnerability_metrics (cfg : SecurityGateConfig)
    (vulns : List Vulnerability) (scan_results : List (String × ScanVal)) :
    Except String Metrics :=
  let st := aggregateCounts cfg.allow_list vulns
  match List.lookup "high" cfg.severity_thresholds with
  | none => Except.error "KeyError: high"
  | some high_threshold =>
    Except.ok
      { total_vulnerabilities := totalVulnerabilitiesOf vulns
        critical_count := (List.lookup "critical" st.severity_counts).getD 0
        high_count := (List.lookup "high" st.severity_counts).getD 0
        medium_count := (List.lookup "medium" st.severity_counts).getD 0
        low_count := (List.lookup "low" st.severity_counts).getD 0
        secret_count := st.secret_count
        cve_count := st.cve_count
        tool_counts := st.tool_counts
        category_counts := st.category_counts
        critical_vulnerabilities_exist :=
          decide (0 < (List.lookup "critical" st.severity_counts).getD 0)
        excessive_high_vulnerabilities :=
          decide (high_threshold < ((List.lookup "high" st.severity_counts).getD 0 : Int))
        secrets_detected := decide (0 < st.secret_count)
        required_tools_passed := evaluate_required_tools scan_results cfg.tool_requirements }

/-- A per-rule result dict. `condition` and `action` are optional because the
entry appended by the required-tools post-check carries neither key. -/
structure RuleResult where
  name : String
  passed : Bool
  condition : Option String
  reason : String
  action : Option String
deriving DecidableEq

/-- `_evaluate_rule`: substring matching of the condition against the four
hard-coded patterns, in source order; an unmatched condition passes. In this
typed embedding no exception can be raised by the body, so the `except`
branch of the source is unreachable. -/
def evaluate_rule (rule : Rule) (metrics : Metrics) : RuleResult :=
  let condition := rule.condition.getD ""
  if pyIn "critical_count == 0" condition then
    { name := rule.name.getD "Unknown Rule"
      passed := decide (metrics.critical_count = 0)
      condition := some condition
      reason := if metrics.critical_count = 0 then "No critical vulnerabilities"
                else "Critical vulnerabilities found"
      action := some (rule.action.getD "fail") }
  else if pyIn "high_count <= 10" condition then
    let hc := metrics.high_count
    { name := rule.name.getD "Unknown Rule"
      passed := decide (metrics.high_count ≤ 10)
      condition := some condition
      reason := if metrics.high_count ≤ 10 then "High severity within limits"
                else s!"High severity count ({hc}) exceeds threshold (10)"
      action := some (rule.action.getD "fail") }
  else if pyIn "secret_count == 0" condition then
    { name := rule.name.getD "Unknown Rule"
      passed := decide (metrics.secret_count = 0)
      condition := some condition
      reason := if metrics.secret_count = 0 then "No secrets detected"
                else "Secrets detected in codebase"
      action := some (rule.action.getD "fail") }
  else if pyIn "required_tools_passed" condition then
    { name := rule.name.getD "Unknown Rule"
      passed := metrics.required_tools_passed
      condition := some condition
      reason := if metrics.required_tools_passed then "All required tools passed"
                else "Required security tools failed"
      action := some (rule.action.getD "fail") }
  else
    { name := rule.name.getD "Unknown Rule"
      passed := true
      condition := some condition
      reason := "Rule condition not recognized"
      action := some (rule.action.getD "fail") }

/-- The `gate_details` dict as `evaluate_security_gates` builds it: one of
`failed_rules` and `passed_rules` is present depending on the branch taken. -/
structure GateDetails where
  status : String
  failed_rules : Option (List RuleResult)
  passed_rules : Option (List String)
  metrics : Metrics
deriving DecidableEq

/-- The entry the required-tools post-check appends. -/
def requiredToolsFailureEntry : RuleResult :=
  { name := "Required tools evaluation", passed := false, condition := none
    reason := "One or more required security tools failed", action := none }

/-- The body of `evaluate_security_gates` after the metrics are computed:
evaluate every rule, aggregate the failures, then re-check the required
tools; when that re-check fails on a details dict built by the all-rules-pass
branch, `self.gate_details['failed_rules']` raises `KeyError` because only
`passed_rules` was stored. -/
def gateFromMetrics (policy_rules : List Rule) (metrics : Metrics) :
    Except String GateDetails :=
  let gate_results := policy_rules.map fun rule => evaluate_rule rule metrics
  let failed_rules := gate_results.filter fun r => !r.passed
  let details : GateDetails :=
    if failed_rules = [] then
      { status := "PASSED", failed_rules := none
        passed_rules := some (gate_results.map fun r => r.name), metrics := metrics }
    else
      { status := "FAILED", failed_rules := some failed_rules
        passed_rules := none, metrics := metrics }
  if metrics.required_tools_passed then Except.ok details
  else
    match details.failed_rules with
    | some l =>
      Except.ok { details with status := "FAILED"
                               failed_rules := some (l ++ [requiredToolsFailureEntry]) }
    | none => Except.error "KeyError: failed_rules"

/-- `evaluate_security_gates`: metrics first, then the rule phase and the
required-tools post-check. -/
def evaluate_security_gates (cfg : SecurityGateConfig)
    (vulns : List Vulnerability) (scan_results : List (String × ScanVal)) :
    Except String GateDetails := do
  let metrics ← calculate_vulnerability_metrics cfg vulns scan_results
  gateFromMetrics cfg.policy_rules metrics

/-- The parts of a SARIF `physicalLocation` the processor reads. -/
structure PhysLoc where
  artifactLocation_uri : Option String
  region_startLine : Option Nat
deriving DecidableEq

/-- One entry of a SARIF `locations` array: the `physicalLocation` key may be
absent. -/
structure SarifLocation where
  physicalLocation : Option PhysLoc
deriving DecidableEq

/-- One entry of a SARIF `run.results` array. `message_text` stands for
`message.text`; it is absent when either key is missing. -/
structure SarifResult where
  ruleId : Option String
  level : Option String
  message_text : Option String
  locations : List SarifLocation
deriving DecidableEq

/-- One SARIF run. -/
structure SarifRun where
  results : List SarifResult
deriving DecidableEq

/-- A SARIF file: its `runs` array. -/
structure SarifData where
  runs : List SarifRun
deriving DecidableEq

/-- `_map_sarif_level_to_severity`: the mapping dict with default `low`
(`mapping.get(level, 'low')`, a key-by-key comparison), applied to
`result.get('level')`. -/
def map_sarif_level_to_severity (level : Option String) : String :=
  if level == some "error" then "high"
  else if level == some "warning" then "medium"
  else if level == some "note" then "low"
  else "low"

/-- The level filter of `_process_sarif_for_tool`:
`result.get('level') in ['error', 'warning', 'note']`. -/
def sarifLevelQualifies (result : SarifResult) : Bool :=
  match result.level with
  | some l => l == "error" || l == "warning" || l == "note"
  | none => false

/-- The inner loop body of `_process_sarif_for_tool`: append one processed
dict per qualifying result, with the location fields overwritten from the
first entry of `locations` when it carries a `physicalLocation`. -/
def process_sarif_result (tool_name : String) (results : List Vulnerability)
    (result : SarifResult) : List Vulnerability :=
  if sarifLevelQualifies result then
    let processed_result : Vulnerability :=
      { id := tool_name ++ "-" ++ result.ruleId.getD "unknown"
        tool := tool_name
        severity := map_sarif_level_to_severity result.level
        title := result.message_text.getD (tool_name ++ " finding")
        description := result.message_text.getD ""
        file_path := none
        line_number := none
        category := "SAST"
        cve_id := none, cwe_id := none
        package_name := none, package_version := none
        is_false_positive := false, status := "open" }
    let withLoc :=
      match result.locations with
      | [] => processed_result
      | location :: _ =>
        match location.physicalLocation with
        | some pl =>
          { processed_result with file_path := pl.artifactLocation_uri
                                  line_number := pl.region_startLine }
        | none => processed_result
    results ++ [withLoc]
  else results

/-- `_process_sarif_for_tool`: the two nested loops over runs and results. -/
def process_sarif_for_tool (sarif : SarifData) (tool_name : String) :
    List Vulnerability :=
  List.foldl (fun results run =>
    List.foldl (process_sarif_result tool_name) results run.results) [] sarif.runs

/-- The Finding the specification describes for one qualifying SARIF result:
severity via error to high, warning to medium, note to low; location taken
from the first `locations[0].physicalLocation` when present; the remaining
fields as the processor fills them. -/
def sarif_finding_spec (tool_name : String) (result : SarifResult) : Vulnerability :=
  { id := tool_name ++ "-" ++ result.ruleId.getD "unknown"
    tool := tool_name
    severity :=
      if result.level = some "error" then "high"
      else if result.level = some "warning" then "medium"
      else if result.level = some "note" then "low"
      else "low"
    title := result.message_text.getD (tool_name ++ " finding")
    description := result.message_text.getD ""
    file_path :=
      match result.locations with
      | location :: _ =>
        match location.physicalLocation with
        | some pl => pl.artifactLocation_uri
        | none => none
      | [] => none
    line_number :=
      match result.locations with
      | location :: _ =>
        match location.physicalLocation with
        | some pl => pl.region_startLine
        | none => none
      | [] => none
    category := "SAST"
    cve_id := none, cwe_id := none
    package_name := none, package_version := none
    is_false_positive := false, status := "open" }

/-- The `severity_order` dict of `_get_top_vulnerabilities`, read with
default 0. -/
def severity_order_get (severity : String) : Nat :=
  if severity == "critical" then 4
  else if severity == "high" then 3
  else if severity == "medium" then 2
  else if severity == "low" then 1
  else 0

/-- The sort key `(severity_order.get(severity, 'low' rank), title)` of
`_get_top_vulnerabilities`. -/
def sortKey (v : Vulnerability) : Nat × String := (severity_order_get v.severity, v.title)

/-- The stable-descending comparison `sorted(..., reverse=True)` orders by:
`a` may come before `b` iff the key of `b` is lexicographically at most that
of `a`. -/
def vulnBefore (a b : Vulnerability) : Bool :=
  if (sortKey b).1 < (sortKey a).1 then true
  else if (sortKey a).1 < (sortKey b).1 then false
  else pyStrLe (sortKey b).2 (sortKey a).2

/-- `vulnBefore` as a relation, for the stable sort. -/
def vulnBeforeRel (a b : Vulnerability) : Prop := vulnBefore a b = true

instance : DecidableRel vulnBeforeRel := fun a b => decEq (vulnBefore a b) true

/-- The formatted dict `_get_top_vulnerabilities` emits per selected
vulnerability. -/
structure FormattedVuln where
  severity : String
  title : String
  tool : String
  category : String
  location : String
deriving DecidableEq

/-- `_format_location`: `file:line` when both are truthy, the file alone when
only it is, else `N/A`. -/
def format_location (vuln : Vulnerability) : String :=
  let file_path := vuln.file_path.getD ""
  match vuln.line_number with
  | some line_number =>
    if file_path ≠ "" ∧ line_number ≠ 0 then s!"{file_path}:{line_number}"
    else if file_path ≠ "" then file_path
    else "N/A"
  | none => if file_path ≠ "" then file_path else "N/A"

/-- The display dict built for one selected vulnerability. -/
def formatVuln (vuln : Vulnerability) : FormattedVuln :=
  { severity := vuln.severity, title := vuln.title, tool := vuln.tool
    category := vuln.category, location := format_location vuln }

/-- `_get_top_vulnerabilities`: stable descending sort on
`(severity rank, title)`, first `limit` entries, formatted. -/
def get_top_vulnerabilities (vulnerability_data : List Vulnerability)
    (limit : Nat) : List FormattedVuln :=
  (((List.insertionSort vulnBeforeRel vulnerability_data).take limit).map formatVuln)

/-! Concrete fixtures used by counterexamples and witnesses. -/

/-- A metrics record with every count zero and required tools passing. -/
def mZero : Metrics :=
  { total_vulnerabilities := 0, critical_count := 0, high_count := 0
    medium_count := 0, low_count := 0, secret_count := 0, cve_count := 0
    tool_counts := [], category_counts := []
    critical_vulnerabilities_exist := false
    excessive_high_vulnerabilities := false
    secrets_detected := false, required_tools_passed := true }

/-- A base finding for fixtures. -/
def vBase : Vulnerability :=
  { id := "test-1", title := "Sample finding", description := ""
    severity := "low", tool := "CodeQL", category := "SAST"
    file_path := none, line_number := none, cve_id := none, cwe_id := none
    package_name := none, package_version := none
    is_false_positive := false, status := "open" }

/-- A rule whose condition matches the hard-coded high-severity pattern only
as a proper substring. -/
def c8rule : Rule :=
  { name := some "Limited high-severity issues"
    condition := some "high_count <= 100", action := some "fail" }

/-- Metrics with eleven high findings: within the written threshold 100, over
the hard-coded threshold 10. -/
def c8metrics : Metrics := { mZero with high_count := 11 }

/-- C4: a rule dict with no `condition` key -/
def c4rule : Rule := { name := some "Broken rule", condition := none, action := none }

/-- C5: a rule whose condition matches none of the four patterns. -/
def c5rule : Rule :=
  { name := some "Custom coverage rule", condition := some "coverage >= 80"
    action := some "fail" }

/-- C4 counterexample: the claim says a rule lacking the `condition` key is
treated as `passed = false` (fail-closed); on the code the missing key
defaults to the empty string, matches no pattern, and the rule passes. -/
theorem c4_counterexample :
    (evaluate_rule c4rule mZero).passed = true ∧
    (evaluate_rule c4rule mZero).reason = "Rule condition not recognized" ∧
    c4rule.condition = none := by
  refine ⟨rfl, rfl, rfl⟩

/-- C4 (amended): a rule with no `condition` key is read as the empty
condition string, matches none of the hard-coded patterns, and evaluates to
`passed = true` with the unrecognized-condition reason — fail-open, not
fail-closed. -/
theorem c4_missing_condition_fail_open (name action : Option String) (m : Metrics) :
    evaluate_rule { name := name, condition := none, action := action } m =
      { name := name.getD "Unknown Rule", passed := true, condition := some ""
        reason := "Rule condition not recognized"
        action := some (action.getD "fail") } := by
  rfl

/-- C5: a rule whose condition contains none of the four known predicate
patterns evaluates to `passed = true` with the diagnostic reason, so it never
by itself contributes a failed rule. -/
theorem c5_unrecognized_condition_passes (rule : Rule) (m : Metrics)
    (h1 : pyIn "critical_count == 0" (rule.condition.getD "") = false)
    (h2 : pyIn "high_count <= 10" (rule.condition.getD "") = false)
    (h3 : pyIn "secret_count == 0" (rule.condition.getD "") = false)
    (h4 : pyIn "required_tools_passed" (rule.condition.getD "") = false) :
    (evaluate_rule rule m).passed = true ∧
    (evaluate_rule rule m).reason = "Rule condition not recognized" := by
  simp [evaluate_rule, h1, h2, h3, h4]

/-- C5 witness: the theorem applied to a concrete unmatched condition. -/
theorem c5_witness :
    pyIn "critical_count == 0" (c5rule.condition.getD "") = false ∧
    ((evaluate_rule c5rule mZero).passed = true ∧
     (evaluate_rule c5rule mZero).reason = "Rule condition not recognized") :=
  ⟨by decide,
   c5_unrecognized_condition_passes c5rule mZero (by decide) (by decide)
     (by decide) (by decide)⟩

/-- C8: rule conditions are matched by substring containment against the
hard-coded patterns; any condition containing `high_count <= 10` (and not the
critical pattern, checked first) is evaluated against the fixed constant 10,
so the condition `high_count <= 100` is recognized by that pattern and fails
on eleven high findings although eleven is at most the written 100. -/
theorem c8_hardcoded_high_threshold :
    (∀ (rule : Rule) (m : Metrics) (c : String), rule.condition = some c →
        pyIn "critical_count == 0" c = false →
        pyIn "high_count <= 10" c = true →
        (evaluate_rule rule m).passed = decide (m.high_count ≤ 10)) ∧
    pyIn "high_count <= 10" "high_count <= 100" = true ∧
    (evaluate_rule c8rule c8metrics).passed = false ∧
    c8metrics.high_count ≤ 100 := by
  refine ⟨?_, by decide, by decide, by decide⟩
  intro rule m c hc h1 h2
  simp only [evaluate_rule, hc, Option.getD_some, h1, h2, Bool.false_eq_true, if_false, if_true]

/-- C8 witness: the general statement applied to the `high_count <= 100`
rule and eleven high findings. -/
theorem c8_witness :
    (evaluate_rule c8rule c8metrics).passed = decide (c8metrics.high_count ≤ 10) :=
  c8_hardcoded_high_threshold.1 c8rule c8metrics "high_count <= 100" rfl
    (by decide) (by decide)

/-- A critical-severity finding that is neither a false positive nor
allow-listed under an empty allow-list. -/
def vCritical : Vulnerability := { vBase with id := "test-crit", severity := "critical" }

/-- A policy whose `policy_rules` list is empty and which requires no tools:
a counterexample policy for the claim that the gate conditions hold for every
policy. -/
def cfgEmptyRules : SecurityGateConfig :=
  { severity_thresholds := [("critical", 0), ("high", 10), ("medium", 50), ("low", 100)]
    tool_requirements := [], policy_rules := [], allow_list := []
    fail_conditions := [] }

/-- C1 counterexample: under a policy with no rules the gate passes although
one critical vulnerability is counted, so the claimed equivalence does not
hold for every policy. -/
theorem c1_counterexample :
    (evaluate_security_gates cfgEmptyRules [vCritical] []).map (fun d => d.status) =
      Except.ok "PASSED" ∧
    (calculate_vulnerability_metrics cfgEmptyRules [vCritical] []).map
      (fun m => m.critical_count) = Except.ok 1 := by
  refine ⟨rfl, rfl⟩

/-- C1 (amended): under the default policy rule list (whose high threshold is
the hard-coded 10) the gate evaluation completes and reports PASSED exactly
when the critical count is zero, the high count is at most 10, the secret
count is zero and the required tools passed; any violation yields FAILED. -/
theorem c1_gate_status_iff (m : Metrics) :
    (gateFromMetrics get_default_policy.policy_rules m).map (fun d => d.status) =
      Except.ok
        (if m.critical_count = 0 ∧ m.high_count ≤ 10 ∧ m.secret_count = 0 ∧
            m.required_tools_passed = true
         then "PASSED" else "FAILED") := by
  have p11 : pyIn "critical_count == 0" "critical_count == 0" = true := by decide
  have p21 : pyIn "critical_count == 0" "high_count <= 10" = false := by decide
  have p22 : pyIn "high_count <= 10" "high_count <= 10" = true := by decide
  have p31 : pyIn "critical_count == 0" "secret_count == 0" = false := by decide
  have p32 : pyIn "high_count <= 10" "secret_count == 0" = false := by decide
  have p33 : pyIn "secret_count == 0" "secret_count == 0" = true := by decide
  have p41 : pyIn "critical_count == 0" "required_tools_passed" = false := by decide
  have p42 : pyIn "high_count <= 10" "required_tools_passed" = false := by decide
  have p43 : pyIn "secret_count == 0" "required_tools_passed" = false := by decide
  have p44 : pyIn "required_tools_passed" "required_tools_passed" = true := by decide
  by_cases h1 : m.critical_count = 0 <;> by_cases h2 : m.high_count ≤ 10 <;>
    by_cases h3 : m.secret_count = 0 <;> cases h4 : m.required_tools_passed <;>
    simp [gateFromMetrics, get_default_policy, evaluate_rule, p11, p21, p22, p31,
      p32, p33, p41, p42, p43, p44, h1, h2, h3, h4] <;> rfl

/-- C3: a policy whose single rule passes while a required tool is missing. -/
def cfgC3 : SecurityGateConfig :=
  { severity_thresholds := [("critical", 0), ("high", 10)]
    tool_requirements := [("CodeQL", { required := true, min_score := 0 })]
    policy_rules :=
      [{ name := some "No critical vulnerabilities"
         condition := some "critical_count == 0", action := some "fail" }]
    allow_list := [], fail_conditions := [] }

/-- C3: when every policy rule passes but a required tool did not pass, the
all-rules-pass branch stores only `passed_rules`, and the required-tools
post-check then indexes `gate_details['failed_rules']`, raising `KeyError`:
the evaluation does not complete with a gate decision. -/
theorem c3_keyerror_on_required_tools :
    evaluate_security_gates cfgC3 [] [] = Except.error "KeyError: failed_rules" ∧
    evaluate_required_tools [] cfgC3.tool_requirements = false ∧
    (calculate_vulnerability_metrics cfgC3 [] []).map (fun m => m.critical_count) =
      Except.ok 0 := by
  refine ⟨rfl, rfl, rfl⟩

/-- The value sum of a counter dict, unfolded one entry. -/
theorem sumValues_cons (p : String × Nat) (l : List (String × Nat)) :
    sumValues (p :: l) = p.2 + sumValues l := by
  simp [sumValues]

/-- Incrementing a counter dict raises the value sum by one. -/
theorem sumValues_pyDictIncr (k : String) :
    ∀ d : List (String × Nat), sumValues (pyDictIncr k d) = sumValues d + 1 := by
  intro d
  induction d with
  | nil => rfl
  | cons p rest ih =>
    obtain ⟨k₂, n⟩ := p
    by_cases h : k₂ == k <;> simp only [pyDictIncr, h, if_true, if_false,
      Bool.false_eq_true, sumValues_cons, ih] <;> omega

/-- Splitting the length of a filtered list along a second predicate. -/
theorem filter_length_split {α : Type} (p q : α → Bool) :
    ∀ l : List α, (l.filter p).length =
      (l.filter fun a => p a && q a).length +
        (l.filter fun a => p a && !q a).length := by
  intro l
  induction l with
  | nil => rfl
  | cons a l ih =>
    cases hp : p a <;> cases hq : q a <;>
      simp [List.filter_cons, hp, hq, ih] <;> omega

/-- The severity-count sum accumulated by the counting loop equals the number
of findings that are neither false positives nor allow-listed. -/
theorem aggregate_severity_sum (al : List String) :
    ∀ (vulns : List Vulnerability) (st : AggState),
      sumValues ((vulns.foldl (aggStep al) st).severity_counts) =
        sumValues st.severity_counts +
          (vulns.filter fun v =>
            !v.is_false_positive && !(is_allowed_vulnerability al v)).length := by
  intro vulns
  induction vulns with
  | nil => intro st; simp
  | cons v vs ih =>
    intro st
    cases hfp : v.is_false_positive <;> cases hal : is_allowed_vulnerability al v <;>
      simp [aggStep, hfp, hal, List.filter_cons, ih, sumValues_pyDictIncr] <;> omega

/-- C2 counterexample: a critical finding whose `cwe_id` is on the default
allow-list still counts toward `total_vulnerabilities` (which filters only
false positives), while every severity count excludes it: the sum of the
severity counts is 0, not 1. -/
def vCWE : Vulnerability :=
  { vBase with id := "analysis-1", title := "Hardcoded test credential"
               severity := "critical", cwe_id := some "CWE-999" }

/-- The metrics record the evaluator computes for `[vCWE]` under the default
policy and empty scan results. -/
def c2metrics : Metrics :=
  { total_vulnerabilities := 1, critical_count := 0, high_count := 0
    medium_count := 0, low_count := 0, secret_count := 0, cve_count := 0
    tool_counts := [], category_counts := []
    critical_vulnerabilities_exist := false
    excessive_high_vulnerabilities := false
    secrets_detected := false, required_tools_passed := false }

/-- C2 counterexample: the allow-listed critical finding is not excluded from
`total_vulnerabilities`, so the total (1) differs from the severity-count sum
(0). -/
theorem c2_counterexample :
    (calculate_vulnerability_metrics get_default_policy [vCWE] []).map
        (fun m => m.total_vulnerabilities) = Except.ok 1 ∧
    (calculate_vulnerability_metrics get_default_policy [vCWE] []).map
        (fun m => m.critical_count + m.high_count + m.medium_count + m.low_count) =
      Except.ok 0 ∧
    sumValues (aggregateCounts get_default_policy.allow_list [vCWE]).severity_counts = 0 ∧
    vCWE.cwe_id = some "CWE-999" ∧ vCWE.severity = "critical" ∧
    vCWE.is_false_positive = false := by
  refine ⟨rfl, rfl, rfl, rfl, rfl, rfl⟩

/-- C2 (amended): `total_vulnerabilities` counts every non-false-positive
finding, while the severity counts additionally exclude allow-listed
findings; the total therefore equals the severity-count sum plus the number
of non-false-positive allow-listed findings, and the two agree only when no
finding is allow-listed. -/
theorem c2_total_vs_severity_sum (cfg : SecurityGateConfig)
    (vulns : List Vulnerability) (scan_results : List (String × ScanVal))
    (m : Metrics)
    (h : calculate_vulnerability_metrics cfg vulns scan_results = Except.ok m) :
    m.total_vulnerabilities = (vulns.filter fun v => !v.is_false_positive).length ∧
    sumValues (aggregateCounts cfg.allow_list vulns).severity_counts =
      (vulns.filter fun v =>
        !v.is_false_positive && !(is_allowed_vulnerability cfg.allow_list v)).length ∧
    m.total_vulnerabilities =
      sumValues (aggregateCounts cfg.allow_list vulns).severity_counts +
        (vulns.filter fun v =>
          !v.is_false_positive && is_allowed_vulnerability cfg.allow_list v).length := by
  have hsum :
      sumValues (aggregateCounts cfg.allow_list vulns).severity_counts =
        (vulns.filter fun v =>
          !v.is_false_positive && !(is_allowed_vulnerability cfg.allow_list v)).length := by
    have := aggregate_severity_sum cfg.allow_list vulns initAggState
    simpa [aggregateCounts, initAggState, sumValues] using this
  have htot : m.total_vulnerabilities = (vulns.filter fun v => !v.is_false_positive).length := by
    unfold calculate_vulnerability_metrics at h
    split at h
    · exact absurd h (by simp)
    · injection h with h
      subst h
      rfl
  refine ⟨htot, hsum, ?_⟩
  have hsplit := filter_length_split (fun v : Vulnerability => !v.is_false_positive)
    (fun v => is_allowed_vulnerability cfg.allow_list v) vulns
  rw [htot, hsum]
  omega

/-- C2 witness: the amended statement at the allow-listed critical finding. -/
theorem c2_witness :
    calculate_vulnerability_metrics get_default_policy [vCWE] [] = Except.ok c2metrics ∧
    (c2metrics.total_vulnerabilities =
        ([vCWE].filter fun v => !v.is_false_positive).length ∧
      sumValues (aggregateCounts get_default_policy.allow_list [vCWE]).severity_counts =
        ([vCWE].filter fun v =>
          !v.is_false_positive &&
            !(is_allowed_vulnerability get_default_policy.allow_list v)).length ∧
      c2metrics.total_vulnerabilities =
        sumValues (aggregateCounts get_default_policy.allow_list [vCWE]).severity_counts +
          ([vCWE].filter fun v =>
            !v.is_false_positive &&
              is_allowed_vulnerability get_default_policy.allow_list v).length) :=
  ⟨rfl, c2_total_vs_severity_sum get_default_policy [vCWE] [] c2metrics rfl⟩

/-- The empty pattern is a substring of every list. -/
theorem listInfix_nil : ∀ l : List Char, listInfix [] l = true := by
  intro l
  cases l <;> simp [listInfix, listIsPrefix, List.isEmpty]

/-- The empty string is `in` every string. -/
theorem pyIn_nil (s : String) : pyIn "" s = true := listInfix_nil s.data

/-- The allow-list criterion as the specification words it: the `cwe_id` is
literally equal to an allow-list entry, or the lower-cased title contains
some allow-list entry as a case-insensitive substring. -/
def allow_match_spec (allow_list : List String) (v : Vulnerability) : Prop :=
  (∃ c, v.cwe_id = some c ∧ c ∈ allow_list) ∨
  (∃ e ∈ allow_list, pyIn (pyLower e) (pyLower v.title) = true)

/-- An allow-listed finding is skipped by the counting loop whatever its
other fields. -/
theorem aggStep_allowed (al : List String) (st : AggState) (v : Vulnerability)
    (h : is_allowed_vulnerability al v = true) : aggStep al st v = st := by
  cases hfp : v.is_false_positive <;> simp [aggStep, hfp, h]

/-- C7 (amended): the matching criterion is as the specification words it,
and a matching finding is excluded from every count the loop accumulates
(severity, tool, category, secret and cve); `total_vulnerabilities` however
filters only false positives, so a non-false-positive matching finding still
raises the total by one. -/
theorem c7_allow_list_semantics :
    (∀ (al : List String) (v : Vulnerability),
        is_allowed_vulnerability al v = true ↔ allow_match_spec al v) ∧
    (∀ (al : List String) (v : Vulnerability) (pre post : List Vulnerability),
        is_allowed_vulnerability al v = true →
          aggregateCounts al (pre ++ v :: post) = aggregateCounts al (pre ++ post)) ∧
    (∀ (v : Vulnerability) (pre post : List Vulnerability),
        v.is_false_positive = false →
          totalVulnerabilitiesOf (pre ++ v :: post) =
            totalVulnerabilitiesOf (pre ++ post) + 1) := by
  have hor : ∀ a b : Bool, (a || b) = true ↔ a = true ∨ b = true := by
    intro a b; cases a <;> cases b <;> simp
  refine ⟨?_, ?_, ?_⟩
  · intro al v
    constructor
    · intro h
      rcases (hor _ _).mp (by simpa only [is_allowed_vulnerability] using h) with hc | ht
      · cases hcwe : v.cwe_id with
        | none => rw [hcwe] at hc; cases hc
        | some c =>
          rw [hcwe] at hc
          have hmem : c ∈ al := by
            have := (Bool.and_eq_true _ _).mp hc
            simpa using this.2
          exact Or.inl ⟨c, hcwe, hmem⟩
      · rcases List.any_eq_true.mp ht with ⟨e, he, hin⟩
        exact Or.inr ⟨e, he, hin⟩
    · intro h
      rcases h with ⟨c, hcwe, hmem⟩ | ⟨e, he, hin⟩
      · by_cases hce : c = ""
        · subst hce
          have hp : pyIn (pyLower "") (pyLower v.title) = true := pyIn_nil _
          simp only [is_allowed_vulnerability]
          exact (hor _ _).mpr (Or.inr (List.any_eq_true.mpr ⟨"", hmem, hp⟩))
        · simp only [is_allowed_vulnerability]
          refine (hor _ _).mpr (Or.inl ?_)
          rw [hcwe]
          simp [hce, hmem]
      · simp only [is_allowed_vulnerability]
        exact (hor _ _).mpr (Or.inr (List.any_eq_true.mpr ⟨e, he, hin⟩))
  · intro al v pre post h
    unfold aggregateCounts
    rw [List.foldl_append, List.foldl_append, List.foldl_cons, aggStep_allowed al _ v h]
  · intro v pre post h
    unfold totalVulnerabilitiesOf
    rw [List.filter_append, List.filter_append, List.filter_cons]
    simp [h]
    omega

/-- C7: a finding allow-listed through a case-insensitive title match. -/
def vTitleAllowed : Vulnerability :=
  { vBase with id := "codeql-1", title := "Info-Only debug helper", severity := "high" }

/-- C7 counterexample: the title-matched finding is excluded from the
severity counts but not from `total_vulnerabilities`, refuting "excluded from
ALL counts, including the total". -/
theorem c7_counterexample :
    is_allowed_vulnerability get_default_policy.allow_list vTitleAllowed = true ∧
    (calculate_vulnerability_metrics get_default_policy [vTitleAllowed] []).map
        (fun m => m.total_vulnerabilities) = Except.ok 1 ∧
    (calculate_vulnerability_metrics get_default_policy [vTitleAllowed] []).map
        (fun m => m.high_count) = Except.ok 0 := by
  refine ⟨by decide, rfl, rfl⟩

/-- C7 witness: the amended statement at the concrete title-matched
finding. -/
theorem c7_witness :
    is_allowed_vulnerability ["info-only"] vTitleAllowed = true ∧
    aggregateCounts ["info-only"] ([] ++ vTitleAllowed :: []) =
      aggregateCounts ["info-only"] ([] ++ []) ∧
    totalVulnerabilitiesOf ([] ++ vTitleAllowed :: []) =
      totalVulnerabilitiesOf ([] ++ []) + 1 :=
  ⟨by decide,
   c7_allow_list_semantics.2.1 ["info-only"] vTitleAllowed [] [] (by decide),
   c7_allow_list_semantics.2.2 vTitleAllowed [] [] rfl⟩

/-- C6: the scan-results state never holds a `tool_results` key (loading
stores only `analysis`), so the required-tools check sees the empty dict,
every required tool reads as `unknown`, and the check returns true exactly
when no tool is marked required; under the default policy (CodeQL and Grype
required) it is false on every run. -/
theorem c6_no_tool_results_key :
    (∀ a : Option String,
        List.lookup "tool_results" (load_scan_results_effect a) = none) ∧
    (∀ (a : Option String) (reqs : List (String × ToolReq)),
        evaluate_required_tools (load_scan_results_effect a) reqs =
          !(reqs.any fun p => p.2.required)) ∧
    (∀ a : Option String,
        evaluate_required_tools (load_scan_results_effect a)
          get_default_policy.tool_requirements = false) := by
  have h1 : ∀ a : Option String,
      List.lookup "tool_results" (load_scan_results_effect a) = none := by
    intro a
    cases a <;> rfl
  have hnil : ∀ reqs : List (String × ToolReq),
      (reqs.all fun p => !p.2.required ||
         (let tool_result := (List.lookup p.1 ([] : List (String × String))).getD "unknown"
          tool_result == "passed" || tool_result == "success")) =
        !(reqs.any fun p => p.2.required) := by
    intro reqs
    induction reqs with
    | nil => rfl
    | cons p ps ih =>
      simp only [List.all_cons, List.any_cons, Bool.not_or, ih]
      cases p.2.required <;> rfl
  have h2 : ∀ (a : Option String) (reqs : List (String × ToolReq)),
      evaluate_required_tools (load_scan_results_effect a) reqs =
        !(reqs.any fun p => p.2.required) := by
    intro a reqs
    unfold evaluate_required_tools
    rw [h1 a]
    exact hnil reqs

  have h3 : ∀ a : Option String,
      evaluate_required_tools (load_scan_results_effect a)
        get_default_policy.tool_requirements = false := by
    intro a
    rw [h2 a]
    rfl
  exact ⟨h1, h2, h3⟩

/-- The dict-get level mapping agrees with the specification's case
analysis. -/
theorem map_level_eq (lv : Option String) :
    map_sarif_level_to_severity lv =
      (if lv = some "error" then "high"
       else if lv = some "warning" then "medium"
       else if lv = some "note" then "low" else "low") := by
  unfold map_sarif_level_to_severity
  by_cases h1 : lv = some "error" <;> by_cases h2 : lv = some "warning" <;>
    by_cases h3 : lv = some "note" <;> simp_all

/-- One inner-loop step appends exactly the specified Finding when the
result qualifies and nothing otherwise. -/
theorem process_sarif_result_eq (tool_name : String) (acc : List Vulnerability)
    (r : SarifResult) :
    process_sarif_result tool_name acc r =
      acc ++ (if sarifLevelQualifies r then [sarif_finding_spec tool_name r] else []) := by
  unfold process_sarif_result sarif_finding_spec
  cases hq : sarifLevelQualifies r
  · simp
  · cases hl : r.locations with
    | nil => simp [map_level_eq]
    | cons location rest =>
      cases hpl : location.physicalLocation <;> simp [map_level_eq, hpl]

/-- The inner loop over one run accumulates the filtered, mapped results. -/
theorem foldl_process_sarif (tool_name : String) :
    ∀ (results : List SarifResult) (acc : List Vulnerability),
      List.foldl (process_sarif_result tool_name) acc results =
        acc ++ (results.filter sarifLevelQualifies).map (sarif_finding_spec tool_name) := by
  intro results
  induction results with
  | nil => intro acc; simp
  | cons r rs ih =>
    intro acc
    rw [List.foldl_cons, process_sarif_result_eq]
    cases hq : sarifLevelQualifies r <;>
      simp [hq, List.filter_cons, ih, List.append_assoc]

/-- The outer loop over the runs. -/
theorem foldl_sarif_runs (tool_name : String) :
    ∀ (runs : List SarifRun) (acc : List Vulnerability),
      List.foldl (fun results run =>
          List.foldl (process_sarif_result tool_name) results run.results) acc runs =
        acc ++ runs.flatMap (fun run =>
          (run.results.filter sarifLevelQualifies).map (sarif_finding_spec tool_name)) := by
  intro runs
  induction runs with
  | nil => intro acc; simp
  | cons run rs ih =>
    intro acc
    rw [List.foldl_cons, foldl_process_sarif]
    simp [ih, List.append_assoc]

/-- C9: exactly the `run.results` entries whose level is error, warning or
note become Findings; each carries the severity given by the mapping
error to high, warning to medium, note to low; and the location is taken
from the first `locations[0].physicalLocation` when present (all folded into
`sarif_finding_spec`, the per-entry Finding the specification describes). -/
theorem c9_sarif_processing :
    (∀ (sarif : SarifData) (tool_name : String),
        process_sarif_for_tool sarif tool_name =
          sarif.runs.flatMap (fun run =>
            (run.results.filter sarifLevelQualifies).map (sarif_finding_spec tool_name))) ∧
    (∀ (tool_name : String) (r : SarifResult),
        r.level = some "error" → (sarif_finding_spec tool_name r).severity = "high") ∧
    (∀ (tool_name : String) (r : SarifResult),
        r.level = some "warning" → (sarif_finding_spec tool_name r).severity = "medium") ∧
    (∀ (tool_name : String) (r : SarifResult),
        r.level = some "note" → (sarif_finding_spec tool_name r).severity = "low") := by
  refine ⟨?_, ?_, ?_, ?_⟩
  · intro sarif tool_name
    unfold process_sarif_for_tool
    rw [foldl_sarif_runs]
    simp
  · intro tool_name r h
    simp [sarif_finding_spec, h]
  · intro tool_name r h
    simp [sarif_finding_spec, h]
  · intro tool_name r h
    simp [sarif_finding_spec, h]

/-- C9: a concrete qualifying SARIF result. -/
def c9result : SarifResult :=
  { ruleId := some "js-sql-injection", level := some "error"
    message_text := some "SQL injection risk", locations := [] }

/-- C9 witness: the severity mapping applied at a concrete error-level
result. -/
theorem c9_witness :
    (sarif_finding_spec "codeql-results" c9result).severity = "high" :=
  c9_sarif_processing.2.1 "codeql-results" c9result rfl

/-- The code-point comparison is total. -/
theorem strLeAux_total : ∀ as bs : List Char,
    strLeAux as bs = true ∨ strLeAux bs as = true := by
  intro as
  induction as with
  | nil => intro bs; left; rfl
  | cons a as ih =>
    intro bs
    cases bs with
    | nil => right; rfl
    | cons b bs =>
      rcases Nat.lt_trichotomy a.toNat b.toNat with h | h | h
      · left; simp [strLeAux, h]
      · have hn : ¬a.toNat < b.toNat := by omega
        have hn2 : ¬b.toNat < a.toNat := by omega
        rcases ih bs with h1 | h1
        · left; simp [strLeAux, hn, hn2, h1]
        · right; simp [strLeAux, hn, hn2, h1]
      · right; simp [strLeAux, h]

/-- The code-point comparison is transitive. -/
theorem strLeAux_trans : ∀ as bs cs : List Char,
    strLeAux as bs = true → strLeAux bs cs = true → strLeAux as cs = true := by
  intro as
  induction as with
  | nil => intro bs cs _ _; rfl
  | cons a as ih =>
    intro bs cs hab hbc
    cases bs with
    | nil => exact absurd hab (by simp [strLeAux])
    | cons b bs =>
      cases cs with
      | nil => exact absurd hbc (by simp [strLeAux])
      | cons c cs =>
        rcases Nat.lt_trichotomy a.toNat b.toNat with h1 | h1 | h1
        · rcases Nat.lt_trichotomy b.toNat c.toNat with h2 | h2 | h2
          · have : a.toNat < c.toNat := Nat.lt_trans h1 h2
            simp [strLeAux, this]
          · have : a.toNat < c.toNat := h2 ▸ h1
            simp [strLeAux, this]
          · have hb1 : ¬b.toNat < c.toNat := by omega
            simp [strLeAux, hb1, h2] at hbc
        · rcases Nat.lt_trichotomy b.toNat c.toNat with h2 | h2 | h2
          · have : a.toNat < c.toNat := h1 ▸ h2
            simp [strLeAux, this]
          · have h3 : a.toNat = c.toNat := h1.trans h2
            have hn1 : ¬a.toNat < b.toNat := by omega
            have hn2 : ¬b.toNat < a.toNat := by omega
            have hn3 : ¬b.toNat < c.toNat := by omega
            have hn4 : ¬c.toNat < b.toNat := by omega
            have hn5 : ¬a.toNat < c.toNat := by omega
            have hn6 : ¬c.toNat < a.toNat := by omega
            simp only [strLeAux, hn1, hn2, if_false] at hab
            simp only [strLeAux, hn3, hn4, if_false] at hbc
            simp only [strLeAux, hn5, hn6, if_false]
            exact ih bs cs hab hbc
          · have hb1 : ¬b.toNat < c.toNat := by omega
            simp [strLeAux, hb1, h2] at hbc
        · have ha1 : ¬a.toNat < b.toNat := by omega
          simp [strLeAux, ha1, h1] at hab

/-- The stable-sort relation is total. -/
instance : IsTotal Vulnerability vulnBeforeRel := by
  constructor
  intro a b
  unfold vulnBeforeRel vulnBefore
  rcases Nat.lt_trichotomy (sortKey b).1 (sortKey a).1 with h | h | h
  · left; simp [h]
  · have hn : ¬(sortKey b).1 < (sortKey a).1 := by omega
    have hn2 : ¬(sortKey a).1 < (sortKey b).1 := by omega
    rcases strLeAux_total (sortKey b).2.data (sortKey a).2.data with h1 | h1
    · left; simp [hn, hn2, pyStrLe, h1]
    · right; simp [hn, hn2, pyStrLe, h1]
  · right; simp [h]

/-- The stable-sort relation is transitive. -/
instance : IsTrans Vulnerability vulnBeforeRel := by
  constructor
  intro a b c hab hbc
  unfold vulnBeforeRel vulnBefore at hab hbc ⊢
  by_cases h1 : (sortKey b).1 < (sortKey a).1 <;>
    by_cases h2 : (sortKey c).1 < (sortKey b).1
  · have h3 : (sortKey c).1 < (sortKey a).1 := Nat.lt_trans h2 h1
    simp [h3]
  · by_cases h4 : (sortKey b).1 < (sortKey c).1
    · rw [if_neg h2, if_pos h4] at hbc; cases hbc
    · have h3 : (sortKey c).1 < (sortKey a).1 := by omega
      simp [h3]
  · by_cases h4 : (sortKey a).1 < (sortKey b).1
    · rw [if_neg h1, if_pos h4] at hab; cases hab
    · have h3 : (sortKey c).1 < (sortKey a).1 := by omega
      simp [h3]
  · by_cases h4 : (sortKey a).1 < (sortKey b).1
    · rw [if_neg h1, if_pos h4] at hab; cases hab
    · by_cases h5 : (sortKey b).1 < (sortKey c).1
      · rw [if_neg h2, if_pos h5] at hbc; cases hbc
      · have hn5 : ¬(sortKey c).1 < (sortKey a).1 := by omega
        have hn6 : ¬(sortKey a).1 < (sortKey c).1 := by omega
        rw [if_neg h1, if_neg h4] at hab
        rw [if_neg h2, if_neg h5] at hbc
        rw [if_neg hn5, if_neg hn6]
        exact strLeAux_trans _ _ _ hbc hab

/-- The sort relation, characterized: severity rank descending, and on equal
ranks title descending (Python compares the reversed tuple keys). -/
theorem vulnBeforeRel_iff (a b : Vulnerability) :
    vulnBeforeRel a b ↔
      ((sortKey b).1 < (sortKey a).1 ∨
        ((sortKey b).1 = (sortKey a).1 ∧ pyStrLe (sortKey b).2 (sortKey a).2 = true)) := by
  unfold vulnBeforeRel vulnBefore
  rcases Nat.lt_trichotomy (sortKey b).1 (sortKey a).1 with h | h | h
  · simp [h]
  · have hn : ¬(sortKey b).1 < (sortKey a).1 := by omega
    have hn2 : ¬(sortKey a).1 < (sortKey b).1 := by omega
    simp [hn, hn2, h]
  · have hn : ¬(sortKey b).1 < (sortKey a).1 := by omega
    have hne : ¬(sortKey b).1 = (sortKey a).1 := by omega
    simp [hn, h, hne]

/-- C10 (amended): the selected top-10 list is the first ten entries of a
descending-sorted permutation of the findings — severity rank descending,
ties broken by title in DESCENDING lexicographic order (the reversed sort
reverses the title tie-break as well) — each rendered by `formatVuln`. -/
theorem c10_top_sorted_desc (vulns : List Vulnerability) :
    ∃ sorted_vulns : List Vulnerability,
      sorted_vulns.Perm vulns ∧
      sorted_vulns.Pairwise (fun a b =>
        (sortKey b).1 < (sortKey a).1 ∨
          ((sortKey b).1 = (sortKey a).1 ∧
            pyStrLe (sortKey b).2 (sortKey a).2 = true)) ∧
      get_top_vulnerabilities vulns 10 = (sorted_vulns.take 10).map formatVuln := by
  refine ⟨List.insertionSort vulnBeforeRel vulns, List.perm_insertionSort _ _, ?_, rfl⟩
  have hs := List.sorted_insertionSort vulnBeforeRel vulns
  exact List.Pairwise.imp (fun h => (vulnBeforeRel_iff _ _).mp h) hs

/-- C10: two same-severity findings with distinct titles, listed
alphabetically. -/
def vAlpha : Vulnerability :=
  { vBase with id := "a-1", title := "alpha vulnerability", severity := "high" }

/-- The same-severity partner of `vAlpha` with the greater title. -/
def vBeta : Vulnerability :=
  { vBase with id := "b-1", title := "beta vulnerability", severity := "high" }

/-- C10 counterexample: with equal severities the reversed sort puts the
greater title first — `beta` before `alpha` — refuting the claimed ascending
title tie-break. -/
theorem c10_counterexample :
    get_top_vulnerabilities [vAlpha, vBeta] 10 = [formatVuln vBeta, formatVuln vAlpha] ∧
    vAlpha.severity = vBeta.severity ∧
    pyStrLe vAlpha.title vBeta.title = true ∧
    vAlpha.title ≠ vBeta.title := by
  refine ⟨by decide, rfl, by decide, by decide⟩
